import Mathlib

set_option maxRecDepth 8000
set_option maxHeartbeats 1000000
set_option synthInstance.maxSize 4096
set_option synthInstance.maxHeartbeats 2000000

namespace SqlValidate

/- Shallow embedding of src/work.py, a CI script that validates SQL files
   changed in a commit.  Python strings are modelled as lists of characters;
   the string methods upper, lower, strip, endswith and the membership
   operator are modelled for ASCII text, which covers every keyword the
   script matches against. -/

/-- ASCII whitespace: the characters matched by the whitespace class of the
Python regular-expression engine and stripped by str.strip on ASCII text. -/
def isWs (c : Char) : Bool :=
  c == ' ' || c == '\t' || c == '\n' || c == '\r' || c == '\x0b' || c == '\x0c'

/-- Python str.upper on ASCII text. -/
def upper (s : List Char) : List Char := s.map Char.toUpper

/-- Python str.lower on ASCII text. -/
def lower (s : List Char) : List Char := s.map Char.toLower

/-- Python str.strip with no argument: remove leading and trailing
whitespace. -/
def strip (s : List Char) : List Char :=
  ((s.dropWhile isWs).reverse.dropWhile isWs).reverse

/-- The Python membership operator on strings: the needle occurs as a
contiguous substring of the hay. -/
def containsSub (hay needle : List Char) : Bool :=
  match hay with
  | [] => needle.isEmpty
  | c :: t => needle.isPrefixOf (c :: t) || containsSub t needle

/-- Line-break characters recognised by Python str.splitlines. -/
def isLineBreak (c : Char) : Bool :=
  c == '\n' || c == '\r' || c == '\x0b' || c == '\x0c' || c == '\x1c' ||
  c == '\x1d' || c == '\x1e' || c == '\x85' || c == '\u2028' || c == '\u2029'

/-- Helper for lineCount: the flag records whether characters of a line have
been seen that are not yet terminated by a break. -/
def lineCountAux : List Char → Bool → Nat
  | [], inLine => if inLine then 1 else 0
  | '\r' :: '\n' :: cs, _ => 1 + lineCountAux cs false
  | c :: cs, _ =>
    if isLineBreak c then 1 + lineCountAux cs false else lineCountAux cs true

/-- Python len of str.splitlines: the number of lines of the text, where a
carriage return followed by a newline is a single break and a trailing break
does not open a new line. -/
def lineCount (s : List Char) : Nat := lineCountAux s false

/-- Python str.join with separator comma-space, as used for the keyword
lists in the migration and generic validators. -/
def joinComma : List (List Char) → List Char
  | [] => []
  | [x] => x
  | x :: xs => x ++ ", ".toList ++ joinComma xs

/- The identifier-extracting regular expressions of work.py.  All three
   patterns have the shape LITERAL, one or more whitespace characters, an
   optional backtick, then a captured non-empty run of identifier characters
   (for CREATE PROCEDURE, CREATE FUNCTION and CREATE TABLE the run excludes
   backtick, whitespace and an opening parenthesis; for ALTER TABLE it
   excludes only backtick and whitespace), with the search case-insensitive
   and returning the leftmost match.  Greedy whitespace followed by the
   character classes above leaves the engine no successful backtracking, so
   the match at a given position is: maximal whitespace run, optional
   backtick, maximal identifier run. -/

/-- Identifier characters of the procedure, function and table patterns:
everything except backtick, whitespace and an opening parenthesis. -/
def nameCharStd (c : Char) : Bool := !(c == '\x60' || isWs c || c == '(')

/-- Identifier characters of the ALTER TABLE pattern: everything except
backtick and whitespace. -/
def nameCharAlter (c : Char) : Bool := !(c == '\x60' || isWs c)

/-- Case-insensitive literal match at the head of the text, returning the
rest of the text on success. -/
def matchCIPrefix : List Char → List Char → Option (List Char)
  | [], rest => some rest
  | _ :: _, [] => none
  | p :: ps, c :: cs =>
    if p.toUpper == c.toUpper then matchCIPrefix ps cs else none

/-- After the literal has matched: require at least one whitespace
character, skip the whitespace, skip one optional backtick, then capture a
non-empty run of identifier characters. -/
def extractAfter (nameChar : Char → Bool) (rest : List Char) :
    Option (List Char) :=
  if (rest.takeWhile isWs).isEmpty then none
  else
    let afterWs := rest.dropWhile isWs
    let afterTick :=
      match afterWs with
      | c :: t => if c == '\x60' then t else afterWs
      | [] => afterWs
    let name := afterTick.takeWhile nameChar
    if name.isEmpty then none else some name

/-- Python re.search for the identifier patterns: try the pattern at every
position from the left and return the first captured identifier. -/
def searchName (nameChar : Char → Bool) (pat : List Char) :
    List Char → Option (List Char)
  | [] => none
  | c :: cs =>
    match matchCIPrefix pat (c :: cs) with
    | some rest =>
      match extractAfter nameChar rest with
      | some name => some name
      | none => searchName nameChar pat cs
    | none => searchName nameChar pat cs

/-- validate_procedure_function, lines 81-114 of work.py. -/
def validate_procedure_function (sql_content : List Char) : Bool × List Char :=
  let content_upper := upper sql_content
  if containsSub content_upper "CREATE PROCEDURE".toList then
    match searchName nameCharStd "CREATE PROCEDURE".toList sql_content with
    | none => (false, "Invalid procedure name or structure".toList)
    | some procedure_name =>
      if !containsSub content_upper "BEGIN".toList ||
         !containsSub content_upper "END".toList then
        (false, "Procedure missing BEGIN/END block".toList)
      else
        (true, "Valid stored procedure: ".toList ++ procedure_name)
  else if containsSub content_upper "CREATE FUNCTION".toList then
    match searchName nameCharStd "CREATE FUNCTION".toList sql_content with
    | none => (false, "Invalid function name or structure".toList)
    | some function_name =>
      if !containsSub content_upper "RETURNS".toList then
        (false, "Function missing RETURNS clause".toList)
      else
        (true, "Valid function: ".toList ++ function_name)
  else
    (false, "Not a valid procedure or function".toList)

/-- validate_table_script, lines 116-143 of work.py.  The parenthesis checks
are on the raw content, as in the source. -/
def validate_table_script (sql_content : List Char) : Bool × List Char :=
  let content_upper := upper sql_content
  if containsSub content_upper "CREATE TABLE".toList then
    match searchName nameCharStd "CREATE TABLE".toList sql_content with
    | none => (false, "Invalid table name or structure".toList)
    | some table_name =>
      if !containsSub sql_content "(".toList ||
         !containsSub sql_content ")".toList then
        (false, "Table missing column definitions".toList)
      else
        (true, "Valid table creation: ".toList ++ table_name)
  else if containsSub content_upper "ALTER TABLE".toList then
    match searchName nameCharAlter "ALTER TABLE".toList sql_content with
    | none => (false, "Invalid ALTER TABLE structure".toList)
    | some table_name =>
      (true, "Valid table alteration: ".toList ++ table_name)
  else
    (false, "Not a valid table script".toList)

/-- validate_basic_sql, lines 145-169 of work.py.  The source returns from
inside each keyword check, so the four checks flatten into a first-match
chain of guards. -/
def validate_basic_sql (sql_content : List Char) : Bool × List Char :=
  let content_upper := upper sql_content
  if containsSub content_upper "SELECT".toList &&
     (!containsSub content_upper "FROM".toList &&
      !containsSub content_upper "DUAL".toList) then
    (false, "SELECT statement missing FROM clause".toList)
  else if containsSub content_upper "INSERT".toList &&
          !containsSub content_upper "INTO".toList then
    (false, "INSERT statement missing INTO clause".toList)
  else if containsSub content_upper "UPDATE".toList &&
          !containsSub content_upper "SET".toList then
    (false, "UPDATE statement missing SET clause".toList)
  else if containsSub content_upper "DELETE".toList &&
          !containsSub content_upper "FROM".toList then
    (false, "DELETE statement missing FROM clause".toList)
  else
    (true, "Valid SQL statements".toList)

/-- The migration keyword list of validate_migration_script, line 177. -/
def migration_keywords : List (List Char) :=
  ["CREATE", "ALTER", "INSERT", "UPDATE", "DELETE", "DROP"].map String.toList

/-- validate_migration_script, lines 171-183 of work.py. -/
def validate_migration_script (sql_content : List Char) : Bool × List Char :=
  let content_upper := upper sql_content
  let found_keywords :=
    migration_keywords.filter (fun kw => containsSub content_upper kw)
  if found_keywords.isEmpty then
    (false, "Migration script contains no valid SQL operations".toList)
  else
    (true, "Valid migration script with operations: ".toList ++
      joinComma found_keywords)

/-- The keyword list of validate_generic_sql, lines 190-194. -/
def sql_keywords : List (List Char) :=
  ["SELECT", "INSERT", "UPDATE", "DELETE", "CREATE", "ALTER", "DROP",
   "FROM", "WHERE", "JOIN", "INNER", "LEFT", "RIGHT", "OUTER",
   "GROUP BY", "ORDER BY", "HAVING", "LIMIT"].map String.toList

/-- validate_generic_sql, lines 185-201 of work.py. -/
def validate_generic_sql (sql_content : List Char) : Bool × List Char :=
  let content_upper := upper sql_content
  let found_keywords :=
    sql_keywords.filter (fun kw => containsSub content_upper kw)
  if found_keywords.isEmpty then
    (false, "No SQL keywords found".toList)
  else
    (true, "Valid SQL content with keywords: ".toList ++
      joinComma found_keywords)

/-- The statement categories assigned by the keyword dispatch of
validate_sql_file_content. -/
inductive StatementCategory where
  | procedure_or_function
  | table_ddl
  | basic_dml
  | migration
  | generic
deriving DecidableEq

/-- The classifier of validate_sql_file_content, lines 56-76 of work.py: the
if and elif conditions of the dispatch chain, first match wins. -/
def classify (sql_content file_path : List Char) : StatementCategory :=
  let content_upper := upper sql_content
  if containsSub content_upper "CREATE PROCEDURE".toList ||
     containsSub content_upper "CREATE FUNCTION".toList then
    StatementCategory.procedure_or_function
  else if containsSub content_upper "CREATE TABLE".toList ||
          containsSub content_upper "ALTER TABLE".toList then
    StatementCategory.table_ddl
  else if (["SELECT", "INSERT", "UPDATE", "DELETE"].map String.toList).any
            (fun kw => containsSub content_upper kw) then
    StatementCategory.basic_dml
  else if containsSub (lower file_path) "migration".toList ||
          containsSub (lower file_path) "script".toList then
    StatementCategory.migration
  else
    StatementCategory.generic

/-- validate_sql_file_content, lines 38-79 of work.py.  The sqlparse guard of
lines 47-53 is modelled as passing: sqlparse.parse does not raise on string
input and returns a non-empty statement list for the non-blank content that
reaches it, so neither of its error branches is reachable here; with nothing
raising, the outer exception handler of line 78 is likewise dead. -/
def validate_sql_file_content (sql_content file_path : List Char) :
    Bool × List Char :=
  if strip sql_content = [] then (false, "File is empty".toList)
  else
    match classify sql_content file_path with
    | StatementCategory.procedure_or_function =>
      validate_procedure_function sql_content
    | StatementCategory.table_ddl => validate_table_script sql_content
    | StatementCategory.basic_dml => validate_basic_sql sql_content
    | StatementCategory.migration => validate_migration_script sql_content
    | StatementCategory.generic => validate_generic_sql sql_content

/-- The ambient file system seen by validate_sql_file.  The existence and
regular-file tests report booleans, as os.path.exists and os.path.isfile do;
reading (with its latin-1 fallback, which accepts any byte sequence) and
os.path.getsize can raise operating-system errors, modelled as the error
case of Except, whose payload is the error text. -/
structure FS where
  pathExists : List Char → Bool
  isfile : List Char → Bool
  read : List Char → Except (List Char) (List Char)
  getsize : List Char → Except (List Char) Nat

/-- The decoration appended to every classified verdict by lines 236-239 of
work.py. -/
def sizeInfo (bytes lines : Nat) : List Char :=
  " (Size: ".toList ++ (Nat.repr bytes).toList ++ " bytes, Lines: ".toList ++
  (Nat.repr lines).toList ++ ")".toList

/-- The body of validate_sql_file, lines 205-239 of work.py: everything
inside the try block, with an operating-system error surfacing as the error
case. -/
def validate_sql_file_body (fs : FS) (file_path : List Char) :
    Except (List Char) (Bool × List Char) :=
  if !fs.pathExists file_path then
    Except.ok (false, "File not found: ".toList ++ file_path)
  else if !fs.isfile file_path then
    Except.ok (false, "Not a regular file: ".toList ++ file_path)
  else if !(".sql".toList.isSuffixOf (lower file_path)) then
    Except.ok (false, "Not a SQL file: ".toList ++ file_path)
  else
    (fs.read file_path).bind fun content =>
      if strip content = [] then
        Except.ok (false, "File is empty".toList)
      else
        (fs.getsize file_path).bind fun file_size =>
          let line_count := lineCount content
          let r := validate_sql_file_content content file_path
          Except.ok (r.1, r.2 ++ sizeInfo file_size line_count)

/-- validate_sql_file, lines 203-242 of work.py: the try block body with the
exception handler of line 241 converting any raised error into a failing
verdict. -/
def validate_sql_file (fs : FS) (file_path : List Char) : Bool × List Char :=
  match validate_sql_file_body fs file_path with
  | Except.ok r => r
  | Except.error e =>
    (false, "Error processing file ".toList ++ file_path ++ ": ".toList ++ e)

/-- get_sql_files, lines 27-36 of work.py: keep the stripped form of every
changed path whose stripped form ends with the .sql suffix. -/
def get_sql_files (changed_files : List (List Char)) : List (List Char) :=
  match changed_files with
  | [] => []
  | file :: rest =>
    if ".sql".toList.isSuffixOf (strip file) then
      strip file :: get_sql_files rest
    else
      get_sql_files rest

/-- The per-file loop of main, lines 280-292 of work.py: the final value of
the valid counter and of the failed-files list, which collects failing paths
in iteration order. -/
def validateLoop (fs : FS) : List (List Char) → Nat × List (List Char)
  | [] => (0, [])
  | p :: ps =>
    let r := validate_sql_file fs p
    let rest := validateLoop fs ps
    if r.1 then (rest.1 + 1, rest.2) else (rest.1, p :: rest.2)

/-- The observable outcome of one run of main. -/
structure RunResult where
  exit : Nat
  total : Nat
  passed : Nat
  failed_files : List (List Char)

/-- main, lines 244-317 of work.py, with the changed-file list injected (it
comes from a git subprocess) and printing ignored: the early successful
exits for an empty changed-file list and for an empty SQL-file list, then
the validation loop and the final exit decision.  Nothing in the modelled
body raises, so the top-level exception handler of line 315 is dead. -/
def main_run (fs : FS) (changed_files : List (List Char)) : RunResult :=
  if changed_files.isEmpty then
    ⟨0, 0, 0, []⟩
  else
    let sql_files := get_sql_files changed_files
    if sql_files.isEmpty then
      ⟨0, 0, 0, []⟩
    else
      let r := validateLoop fs sql_files
      ⟨if r.1 = sql_files.length then 0 else 1, sql_files.length, r.1, r.2⟩

/-- C3: the basic DML rule checks, in the fixed order SELECT, INSERT,
UPDATE, DELETE, that each DML keyword present in the case-folded text has
its companion clause, the first failing check returning its keyword-specific
message and short-circuiting the rest, and it passes with the message Valid
SQL statements exactly when every present keyword has its companion.  In
particular a document containing SELECT with neither FROM nor DUAL fails
with the FROM-clause message. -/
theorem validate_basic_sql_spec (sql_content : List Char) :
    (containsSub (upper sql_content) "SELECT".toList = true →
     containsSub (upper sql_content) "FROM".toList = false →
     containsSub (upper sql_content) "DUAL".toList = false →
       validate_basic_sql sql_content
         = (false, "SELECT statement missing FROM clause".toList)) ∧
    ((containsSub (upper sql_content) "SELECT".toList &&
      (!containsSub (upper sql_content) "FROM".toList &&
       !containsSub (upper sql_content) "DUAL".toList)) = false →
     containsSub (upper sql_content) "INSERT".toList = true →
     containsSub (upper sql_content) "INTO".toList = false →
       validate_basic_sql sql_content
         = (false, "INSERT statement missing INTO clause".toList)) ∧
    ((containsSub (upper sql_content) "SELECT".toList &&
      (!containsSub (upper sql_content) "FROM".toList &&
       !containsSub (upper sql_content) "DUAL".toList)) = false →
     (containsSub (upper sql_content) "INSERT".toList &&
      !containsSub (upper sql_content) "INTO".toList) = false →
     containsSub (upper sql_content) "UPDATE".toList = true →
     containsSub (upper sql_content) "SET".toList = false →
       validate_basic_sql sql_content
         = (false, "UPDATE statement missing SET clause".toList)) ∧
    ((containsSub (upper sql_content) "SELECT".toList &&
      (!containsSub (upper sql_content) "FROM".toList &&
       !containsSub (upper sql_content) "DUAL".toList)) = false →
     (containsSub (upper sql_content) "INSERT".toList &&
      !containsSub (upper sql_content) "INTO".toList) = false →
     (containsSub (upper sql_content) "UPDATE".toList &&
      !containsSub (upper sql_content) "SET".toList) = false →
     containsSub (upper sql_content) "DELETE".toList = true →
     containsSub (upper sql_content) "FROM".toList = false →
       validate_basic_sql sql_content
         = (false, "DELETE statement missing FROM clause".toList)) ∧
    (validate_basic_sql sql_content = (true, "Valid SQL statements".toList) ↔
      ((containsSub (upper sql_content) "SELECT".toList = true →
        containsSub (upper sql_content) "FROM".toList = true ∨
        containsSub (upper sql_content) "DUAL".toList = true) ∧
       (containsSub (upper sql_content) "INSERT".toList = true →
        containsSub (upper sql_content) "INTO".toList = true) ∧
       (containsSub (upper sql_content) "UPDATE".toList = true →
        containsSub (upper sql_content) "SET".toList = true) ∧
       (containsSub (upper sql_content) "DELETE".toList = true →
        containsSub (upper sql_content) "FROM".toList = true))) := by
  simp only [validate_basic_sql]
  generalize containsSub (upper sql_content) "SELECT".toList = s
  generalize containsSub (upper sql_content) "FROM".toList = f
  generalize containsSub (upper sql_content) "DUAL".toList = d
  generalize containsSub (upper sql_content) "INSERT".toList = i
  generalize containsSub (upper sql_content) "INTO".toList = n
  generalize containsSub (upper sql_content) "UPDATE".toList = u
  generalize containsSub (upper sql_content) "SET".toList = t
  generalize containsSub (upper sql_content) "DELETE".toList = dl
  cases s <;> cases f <;> cases d <;> cases i <;> cases n <;> cases u <;>
    cases t <;> cases dl <;> decide

/-- Witness for validate_basic_sql_spec at the document SELECT 1. -/
theorem validate_basic_sql_spec_witness :
    validate_basic_sql "SELECT 1".toList
      = (false, "SELECT statement missing FROM clause".toList) :=
  (validate_basic_sql_spec "SELECT 1".toList).1 (by decide) (by decide)
    (by decide)

/-- C7 counterexample: get_sql_files returns the stripped form of a kept
entry, so on an entry with surrounding whitespace its output differs from
the filtered subsequence of the original entries. -/
theorem get_sql_files_counterexample :
    get_sql_files [" a.sql ".toList]
      ≠ List.filter (fun f => ".sql".toList.isSuffixOf (strip f))
          [" a.sql ".toList] := by decide

/-- C7 (amended): get_sql_files returns, in input order, the stripped form
of exactly those entries whose stripped path ends with the case-sensitive
suffix .sql, as a pure function; in particular, of three changed files with
two .sql entries and one .py entry, exactly the two .sql entries are kept. -/
theorem get_sql_files_spec (changed_files : List (List Char)) :
    get_sql_files changed_files
      = (changed_files.filter
          (fun f => ".sql".toList.isSuffixOf (strip f))).map strip ∧
    get_sql_files ["a.sql".toList, "b.py".toList, "c.sql".toList]
      = ["a.sql".toList, "c.sql".toList] := by
  refine ⟨?_, by decide⟩
  induction changed_files with
  | nil => rfl
  | cons f fs ih =>
    simp only [get_sql_files, List.filter_cons]
    cases h : ".sql".toList.isSuffixOf (strip f) <;> simp [h, ih]

/-- C8: validating the same content and path twice is deterministic; equal
inputs give identical verdict and message. -/
theorem validate_sql_file_content_deterministic
    (c p c2 p2 : List Char) (hc : c = c2) (hp : p = p2) :
    validate_sql_file_content c p = validate_sql_file_content c2 p2 := by
  rw [hc, hp]

/-- Witness for validate_sql_file_content_deterministic at a concrete
document. -/
theorem validate_sql_file_content_deterministic_witness :
    validate_sql_file_content "SELECT 1".toList "a.sql".toList
      = validate_sql_file_content "SELECT 1".toList "a.sql".toList :=
  validate_sql_file_content_deterministic _ _ _ _ rfl rfl

/-- C10: under the dispatch precondition that the case-folded text contains
none of SELECT, INSERT, UPDATE, DELETE, the migration rule never lists an
INSERT, UPDATE or DELETE operation: its found-keyword list equals the filter
over CREATE, ALTER, DROP alone, the three DML presence checks are dead, and
the verdict is computed from that restricted list. -/
theorem validate_migration_script_no_dml (sql_content : List Char)
    (_hsel : containsSub (upper sql_content) "SELECT".toList = false)
    (hins : containsSub (upper sql_content) "INSERT".toList = false)
    (hupd : containsSub (upper sql_content) "UPDATE".toList = false)
    (hdel : containsSub (upper sql_content) "DELETE".toList = false) :
    ("INSERT".toList ∉ migration_keywords.filter
        (fun kw => containsSub (upper sql_content) kw) ∧
     "UPDATE".toList ∉ migration_keywords.filter
        (fun kw => containsSub (upper sql_content) kw) ∧
     "DELETE".toList ∉ migration_keywords.filter
        (fun kw => containsSub (upper sql_content) kw)) ∧
    migration_keywords.filter (fun kw => containsSub (upper sql_content) kw)
      = (["CREATE", "ALTER", "DROP"].map String.toList).filter
          (fun kw => containsSub (upper sql_content) kw) ∧
    validate_migration_script sql_content
      = (if ((["CREATE", "ALTER", "DROP"].map String.toList).filter
              (fun kw => containsSub (upper sql_content) kw)).isEmpty then
           (false, "Migration script contains no valid SQL operations".toList)
         else
           (true, "Valid migration script with operations: ".toList ++
             joinComma ((["CREATE", "ALTER", "DROP"].map String.toList).filter
               (fun kw => containsSub (upper sql_content) kw)))) := by
  have hf : migration_keywords.filter
        (fun kw => containsSub (upper sql_content) kw)
      = (["CREATE", "ALTER", "DROP"].map String.toList).filter
          (fun kw => containsSub (upper sql_content) kw) := by
    simp only [migration_keywords, List.map_cons, List.map_nil,
      List.filter_cons, List.filter_nil, hins, hupd, hdel]
    simp
  refine ⟨⟨?_, ?_, ?_⟩, hf, ?_⟩
  · simp only [List.mem_filter, hins]
    simp
  · simp only [List.mem_filter, hupd]
    simp
  · simp only [List.mem_filter, hdel]
    simp
  · simp only [validate_migration_script, hf]

/-- Witness for validate_migration_script_no_dml at the document DROP x. -/
theorem validate_migration_script_no_dml_witness :
    "INSERT".toList ∉ migration_keywords.filter
        (fun kw => containsSub (upper "DROP x".toList) kw) :=
  ((validate_migration_script_no_dml "DROP x".toList (by decide) (by decide)
      (by decide) (by decide)).1).1

/-- C1 counterexample: a migration-named path whose content contains SELECT
and FROM but also CREATE TABLE is classified table_ddl, not basic_dml, so
the particular consequence claimed for every such path and content fails. -/
theorem classify_counterexample :
    containsSub (lower "migration.sql".toList) "migration".toList = true ∧
    containsSub (upper "CREATE TABLE t SELECT FROM x".toList)
      "SELECT".toList = true ∧
    containsSub (upper "CREATE TABLE t SELECT FROM x".toList)
      "FROM".toList = true ∧
    classify "CREATE TABLE t SELECT FROM x".toList "migration.sql".toList
      ≠ StatementCategory.basic_dml := by decide

/-- C1 (amended): the classifier assigns exactly one of the five categories
by first-match-wins precedence on the case-folded text: procedure or
function first, then table DDL, then DML keyword presence, then the
case-folded path heuristic for migration and script, else generic.  In
particular a path containing migration whose content contains SELECT and
FROM, and none of the earlier procedure, function or table DDL keywords, is
classified basic_dml, not migration. -/
theorem classify_precedence (sql_content file_path : List Char) :
    (containsSub (upper sql_content) "CREATE PROCEDURE".toList = true ∨
     containsSub (upper sql_content) "CREATE FUNCTION".toList = true →
       classify sql_content file_path
         = StatementCategory.procedure_or_function) ∧
    (containsSub (upper sql_content) "CREATE PROCEDURE".toList = false →
     containsSub (upper sql_content) "CREATE FUNCTION".toList = false →
     (containsSub (upper sql_content) "CREATE TABLE".toList = true ∨
      containsSub (upper sql_content) "ALTER TABLE".toList = true) →
       classify sql_content file_path = StatementCategory.table_ddl) ∧
    (containsSub (upper sql_content) "CREATE PROCEDURE".toList = false →
     containsSub (upper sql_content) "CREATE FUNCTION".toList = false →
     containsSub (upper sql_content) "CREATE TABLE".toList = false →
     containsSub (upper sql_content) "ALTER TABLE".toList = false →
     (containsSub (upper sql_content) "SELECT".toList = true ∨
      containsSub (upper sql_content) "INSERT".toList = true ∨
      containsSub (upper sql_content) "UPDATE".toList = true ∨
      containsSub (upper sql_content) "DELETE".toList = true) →
       classify sql_content file_path = StatementCategory.basic_dml) ∧
    (containsSub (upper sql_content) "CREATE PROCEDURE".toList = false →
     containsSub (upper sql_content) "CREATE FUNCTION".toList = false →
     containsSub (upper sql_content) "CREATE TABLE".toList = false →
     containsSub (upper sql_content) "ALTER TABLE".toList = false →
     containsSub (upper sql_content) "SELECT".toList = false →
     containsSub (upper sql_content) "INSERT".toList = false →
     containsSub (upper sql_content) "UPDATE".toList = false →
     containsSub (upper sql_content) "DELETE".toList = false →
     (containsSub (lower file_path) "migration".toList = true ∨
      containsSub (lower file_path) "script".toList = true) →
       classify sql_content file_path = StatementCategory.migration) ∧
    (containsSub (upper sql_content) "CREATE PROCEDURE".toList = false →
     containsSub (upper sql_content) "CREATE FUNCTION".toList = false →
     containsSub (upper sql_content) "CREATE TABLE".toList = false →
     containsSub (upper sql_content) "ALTER TABLE".toList = false →
     containsSub (upper sql_content) "SELECT".toList = false →
     containsSub (upper sql_content) "INSERT".toList = false →
     containsSub (upper sql_content) "UPDATE".toList = false →
     containsSub (upper sql_content) "DELETE".toList = false →
     containsSub (lower file_path) "migration".toList = false →
     containsSub (lower file_path) "script".toList = false →
       classify sql_content file_path = StatementCategory.generic) ∧
    (containsSub (upper sql_content) "CREATE PROCEDURE".toList = false →
     containsSub (upper sql_content) "CREATE FUNCTION".toList = false →
     containsSub (upper sql_content) "CREATE TABLE".toList = false →
     containsSub (upper sql_content) "ALTER TABLE".toList = false →
     containsSub (lower file_path) "migration".toList = true →
     containsSub (upper sql_content) "SELECT".toList = true →
     containsSub (upper sql_content) "FROM".toList = true →
       classify sql_content file_path = StatementCategory.basic_dml) := by
  refine ⟨?_, ?_, ?_, ?_, ?_, ?_⟩
  · intro h
    rcases h with h | h <;>
      simp only [classify, h, Bool.true_or, Bool.or_true] <;> simp
  · intro h1 h2 h3
    rcases h3 with h | h <;>
      simp only [classify, h1, h2, h, Bool.false_or, Bool.true_or,
        Bool.or_true] <;> simp
  · intro h1 h2 h3 h4 h5
    rcases h5 with h | h | h | h <;>
      simp only [classify, List.map_cons, List.map_nil, List.any_cons,
        List.any_nil, h1, h2, h3, h4, h, Bool.false_or, Bool.true_or,
        Bool.or_true, Bool.or_false] <;> simp
  · intro h1 h2 h3 h4 h5 h6 h7 h8 h9
    rcases h9 with h | h <;>
      simp only [classify, List.map_cons, List.map_nil, List.any_cons,
        List.any_nil, h1, h2, h3, h4, h5, h6, h7, h8, h, Bool.false_or,
        Bool.true_or, Bool.or_true, Bool.or_false] <;> simp
  · intro h1 h2 h3 h4 h5 h6 h7 h8 h9 h10
    simp only [classify, List.map_cons, List.map_nil, List.any_cons,
      List.any_nil, h1, h2, h3, h4, h5, h6, h7, h8, h9, h10, Bool.false_or,
      Bool.or_false]
    simp
  · intro h1 h2 h3 h4 h5 h6 h7
    simp only [classify, List.map_cons, List.map_nil, List.any_cons,
      List.any_nil, h1, h2, h3, h4, h5, h6, Bool.false_or, Bool.true_or,
      Bool.or_true, Bool.or_false]
    simp

/-- Witness for classify_precedence: a SELECT document on a migration path
is classified basic_dml. -/
theorem classify_precedence_witness :
    classify "SELECT a FROM b".toList "migration.sql".toList
      = StatementCategory.basic_dml :=
  (classify_precedence "SELECT a FROM b".toList
      "migration.sql".toList).2.2.2.2.2 (by decide) (by decide) (by decide)
    (by decide) (by decide) (by decide) (by decide)

/-- C2 counterexample: a document with CREATE PROCEDURE, an extractable
procedure name and BEGIN but no END does not lack both block keywords, yet
the rule fails with the BEGIN/END message rather than passing. -/
theorem validate_procedure_function_counterexample :
    containsSub (upper "CREATE PROCEDURE foo BEGIN".toList)
      "CREATE PROCEDURE".toList = true ∧
    searchName nameCharStd "CREATE PROCEDURE".toList
      "CREATE PROCEDURE foo BEGIN".toList = some "foo".toList ∧
    containsSub (upper "CREATE PROCEDURE foo BEGIN".toList)
      "BEGIN".toList = true ∧
    validate_procedure_function "CREATE PROCEDURE foo BEGIN".toList
      = (false, "Procedure missing BEGIN/END block".toList) := by decide

/-- C2 (amended): for a document containing CREATE PROCEDURE with an
extractable procedure identifier, the rule fails with the message Procedure
missing BEGIN/END block exactly when the case-folded text lacks BEGIN or
lacks END; when both are present it passes with the message embedding the
extracted name. -/
theorem validate_procedure_function_beginEnd (sql_content name : List Char)
    (hcp : containsSub (upper sql_content) "CREATE PROCEDURE".toList = true)
    (hname : searchName nameCharStd "CREATE PROCEDURE".toList sql_content
      = some name) :
    (validate_procedure_function sql_content
        = (false, "Procedure missing BEGIN/END block".toList) ↔
      (containsSub (upper sql_content) "BEGIN".toList = false ∨
       containsSub (upper sql_content) "END".toList = false)) ∧
    (containsSub (upper sql_content) "BEGIN".toList = true →
     containsSub (upper sql_content) "END".toList = true →
       validate_procedure_function sql_content
         = (true, "Valid stored procedure: ".toList ++ name)) := by
  cases hb : containsSub (upper sql_content) "BEGIN".toList <;>
    cases he : containsSub (upper sql_content) "END".toList <;>
      simp only [validate_procedure_function, hcp, hname, hb, he] <;> simp

/-- Witness for validate_procedure_function_beginEnd at a complete stored
procedure. -/
theorem validate_procedure_function_beginEnd_witness :
    validate_procedure_function "CREATE PROCEDURE proc1 BEGIN END".toList
      = (true, "Valid stored procedure: ".toList ++ "proc1".toList) :=
  (validate_procedure_function_beginEnd
      "CREATE PROCEDURE proc1 BEGIN END".toList "proc1".toList
      (by decide) (by decide)).2 (by decide) (by decide)

/-- C9: when the dispatch precondition holds, that is the case-folded text
contains CREATE PROCEDURE or CREATE FUNCTION, the fallback verdict Not a
valid procedure or function is unreachable. -/
theorem validate_procedure_function_fallback_unreachable
    (sql_content : List Char)
    (h : containsSub (upper sql_content) "CREATE PROCEDURE".toList = true ∨
         containsSub (upper sql_content) "CREATE FUNCTION".toList = true) :
    validate_procedure_function sql_content
      ≠ (false, "Not a valid procedure or function".toList) := by
  cases hcp : containsSub (upper sql_content) "CREATE PROCEDURE".toList with
  | true =>
    cases hm : searchName nameCharStd "CREATE PROCEDURE".toList sql_content with
    | none =>
      have hv : validate_procedure_function sql_content
          = (false, "Invalid procedure name or structure".toList) := by
        simp only [validate_procedure_function, hcp, hm]
        simp
      rw [hv]
      decide
    | some nm =>
      have hv : validate_procedure_function sql_content
          = if !containsSub (upper sql_content) "BEGIN".toList ||
               !containsSub (upper sql_content) "END".toList then
              (false, "Procedure missing BEGIN/END block".toList)
            else (true, "Valid stored procedure: ".toList ++ nm) := by
        simp only [validate_procedure_function, hcp, hm]
        simp
      rw [hv]
      split
      · decide
      · intro hEq
        exact Bool.noConfusion (congrArg Prod.fst hEq)
  | false =>
    have hcf : containsSub (upper sql_content) "CREATE FUNCTION".toList
        = true := by
      rcases h with h | h
      · rw [hcp] at h
        exact absurd h (by decide)
      · exact h
    cases hm : searchName nameCharStd "CREATE FUNCTION".toList sql_content with
    | none =>
      have hv : validate_procedure_function sql_content
          = (false, "Invalid function name or structure".toList) := by
        simp only [validate_procedure_function, hcp, hcf, hm]
        simp
      rw [hv]
      decide
    | some nm =>
      have hv : validate_procedure_function sql_content
          = if !containsSub (upper sql_content) "RETURNS".toList then
              (false, "Function missing RETURNS clause".toList)
            else (true, "Valid function: ".toList ++ nm) := by
        simp only [validate_procedure_function, hcp, hcf, hm]
        simp
      rw [hv]
      split
      · decide
      · intro hEq
        exact Bool.noConfusion (congrArg Prod.fst hEq)

/-- Witness for validate_procedure_function_fallback_unreachable at a
complete stored procedure. -/
theorem validate_procedure_function_fallback_unreachable_witness :
    validate_procedure_function "CREATE PROCEDURE p BEGIN END".toList
      ≠ (false, "Not a valid procedure or function".toList) :=
  validate_procedure_function_fallback_unreachable
    "CREATE PROCEDURE p BEGIN END".toList (Or.inl (by decide))

/-- C5: validate_sql_file always returns a verdict and message pair, and an
error raised anywhere inside per-file processing is caught at the function
boundary and converted to the failing verdict whose message names the path
and the error text. -/
theorem validate_sql_file_total_and_caught (fs : FS) (file_path : List Char) :
    (∃ verdict message,
      validate_sql_file fs file_path = (verdict, message)) ∧
    (∀ e, validate_sql_file_body fs file_path = Except.error e →
      validate_sql_file fs file_path
        = (false, "Error processing file ".toList ++ file_path ++
            ": ".toList ++ e)) := by
  refine ⟨⟨(validate_sql_file fs file_path).1,
    (validate_sql_file fs file_path).2, rfl⟩, ?_⟩
  intro e he
  simp only [validate_sql_file, he]

/-- A file system whose read raises an operating-system error. -/
def fsReadError : FS :=
  ⟨fun _ => true, fun _ => true, fun _ => Except.error "disk error".toList,
   fun _ => Except.ok 0⟩

/-- Witness for validate_sql_file_total_and_caught on a file system whose
read raises. -/
theorem validate_sql_file_total_and_caught_witness :
    validate_sql_file fsReadError "a.sql".toList
      = (false, "Error processing file ".toList ++ "a.sql".toList ++
          ": ".toList ++ "disk error".toList) :=
  (validate_sql_file_total_and_caught fsReadError "a.sql".toList).2
    "disk error".toList rfl

/-- C6: an existing regular file with the .sql extension whose content
strips to nothing fails with the message File is empty, before any
classification or rule dispatch and regardless of path or content. -/
theorem validate_sql_file_empty (fs : FS) (file_path content : List Char)
    (h1 : fs.pathExists file_path = true)
    (h2 : fs.isfile file_path = true)
    (h3 : ".sql".toList.isSuffixOf (lower file_path) = true)
    (h4 : fs.read file_path = Except.ok content)
    (h5 : strip content = []) :
    validate_sql_file fs file_path = (false, "File is empty".toList) := by
  simp only [validate_sql_file, validate_sql_file_body, h1, h2, h3, h4, h5,
    Except.bind]
  simp

/-- A file system holding one whitespace-only file. -/
def fsBlankFile : FS :=
  ⟨fun _ => true, fun _ => true, fun _ => Except.ok "   ".toList,
   fun _ => Except.ok 3⟩

/-- Witness for validate_sql_file_empty at a whitespace-only .sql file. -/
theorem validate_sql_file_empty_witness :
    validate_sql_file fsBlankFile "m.sql".toList
      = (false, "File is empty".toList) :=
  validate_sql_file_empty fsBlankFile "m.sql".toList "   ".toList rfl rfl
    (by decide) rfl (by decide)

/-- The valid counter and the failed list of the loop sum to the number of
validated files. -/
theorem validateLoop_count (fs : FS) (l : List (List Char)) :
    (validateLoop fs l).1 + (validateLoop fs l).2.length = l.length := by
  induction l with
  | nil => rfl
  | cons p ps ih =>
    simp only [validateLoop]
    cases h : (validate_sql_file fs p).1 <;> simp [h] <;> omega

/-- The failed list of the loop is the filter of the failing paths, in the
original validation order. -/
theorem validateLoop_failed (fs : FS) (l : List (List Char)) :
    (validateLoop fs l).2
      = l.filter (fun p => !(validate_sql_file fs p).1) := by
  induction l with
  | nil => rfl
  | cons p ps ih =>
    simp only [validateLoop, List.filter_cons]
    cases h : (validate_sql_file fs p).1 <;> simp [h, ih]

/-- C4: the run summary satisfies total equals passed plus failed, the
failing paths are collected in their original validation order, and the
exit code is zero exactly when no validated SQL file failed, which covers
the empty changed-file and empty SQL-file sets, and one exactly when at
least one SQL file failed. -/
theorem main_run_summary (fs : FS) (changed_files : List (List Char)) :
    (main_run fs changed_files).passed
        + (main_run fs changed_files).failed_files.length
      = (main_run fs changed_files).total ∧
    (main_run fs changed_files).failed_files
      = (get_sql_files changed_files).filter
          (fun p => !(validate_sql_file fs p).1) ∧
    ((main_run fs changed_files).exit = 0 ↔
      (main_run fs changed_files).failed_files = []) ∧
    ((main_run fs changed_files).exit = 1 ↔
      (main_run fs changed_files).failed_files ≠ []) := by
  cases changed_files with
  | nil => simp [main_run, get_sql_files]
  | cons a l =>
    cases hsql : get_sql_files (a :: l) with
    | nil => simp [main_run, hsql]
    | cons q qs =>
      have hcount := validateLoop_count fs (q :: qs)
      have hfail := validateLoop_failed fs (q :: qs)
      simp only [main_run, hsql, List.isEmpty_cons, Bool.false_eq_true,
        if_false]
      refine ⟨hcount, hfail, ?_, ?_⟩
      · by_cases he : (validateLoop fs (q :: qs)).1 = (q :: qs).length
        · have h0 : (validateLoop fs (q :: qs)).2 = [] := by
            have hl : (validateLoop fs (q :: qs)).2.length = 0 := by omega
            exact List.length_eq_zero.mp hl
          simp [he, h0]
        · have h0 : (validateLoop fs (q :: qs)).2 ≠ [] := by
            intro hnil
            apply he
            have hl : (validateLoop fs (q :: qs)).2.length = 0 := by
              rw [hnil]; rfl
            omega
          simp [h0]
          simpa using he
      · by_cases he : (validateLoop fs (q :: qs)).1 = (q :: qs).length
        · have h0 : (validateLoop fs (q :: qs)).2 = [] := by
            have hl : (validateLoop fs (q :: qs)).2.length = 0 := by omega
            exact List.length_eq_zero.mp hl
          simp [he, h0]
        · have h0 : (validateLoop fs (q :: qs)).2 ≠ [] := by
            intro hnil
            apply he
            have hl : (validateLoop fs (q :: qs)).2.length = 0 := by
              rw [hnil]; rfl
            omega
          simp [h0]
          simpa using he

end SqlValidate
